import Mathlib

/-!
Verification development for the MFC voice-agent webhook adapter
(`src/main.py`).  The program bridges a voice-call platform (Vapi) to a
hosted memory store (Zep): it receives call-lifecycle webhooks, ensures a
caller identity and a conversation thread exist in the store, retrieves a
context summary at call start, and persists the transcript at call end.

The embedding below is a shallow, executable model of `main.py`:

* JSON envelopes are modelled by the fields the handler actually reads
  (`Envelope`, `CallData`, `RawMsg`); a field that is absent or JSON-null
  is `none`.
* The external Zep store is modelled as an explicit state (`ZepState`)
  holding the created users, threads and appended messages, plus a finite
  table answering `thread.get_user_context` queries (an entry present
  means the call succeeds with that result; an absent entry means the
  call raises).  `user.get` / `thread.get` succeed exactly when the key
  was previously created — the deterministic happy-path semantics of the
  store; `user.add` / `thread.add` succeed.
* Every store call made by the Python code is recorded in a trace
  (`List ZepCall`), so frame properties ("no store mutation") are
  statements about the trace.
* Python exception handling becomes total control flow: a handler that
  catches every exception and returns a JSON value is a total function
  into the response type.  The outer catch-all of the webhook handler is
  unreachable in this model and has no counterpart.
-/

/-- A raw transcript entry as read by `main.py` lines 121–123: the handler
looks at the `role`, `content`, `text` and `message` keys of each record.
`none` models an absent (or null) key. -/
structure RawMsg where
  role : Option String
  content : Option String
  text : Option String
  message : Option String
deriving DecidableEq

/-- The `call` object of a webhook payload (`main.py` lines 100–103):
`call.id`, `call.customer.number`, and the call-level `messages` array. -/
structure CallData where
  id : Option String
  customerNumber : Option String
  messages : Option (List RawMsg)
deriving DecidableEq

/-- The webhook envelope fields read by `handle_vapi_webhook`
(`main.py` lines 55, 85–116): `message.type`, `message.call`, and the
payload-level `message.messages` array. -/
structure Envelope where
  type : Option String
  call : CallData
  messages : Option (List RawMsg)
deriving DecidableEq

/-- A message in the Zep Cloud format built by `save_conversation`
(`main.py` lines 303–307): role, content, and a speaker name. -/
structure ZepMsg where
  role : String
  content : String
  name : String
deriving DecidableEq

/-- The result object of `zep.thread.get_user_context` (`main.py` lines
193–200): the code probes the `context` and `facts` attributes with
`hasattr`, so each is optional. -/
structure ZepContextResult where
  context : Option String
  facts : Option (List String)
deriving DecidableEq

/-- One call made to the Zep client, recorded in order. -/
inductive ZepCall where
  | userGet (userId : String)
  | userAdd (userId : String)
  | threadGet (threadId : String)
  | threadAdd (threadId : String) (userId : String)
  | addMessages (threadId : String) (msgs : List ZepMsg)
  | getUserContext (threadId : String) (userId : String)
deriving DecidableEq

/-- The state of the external Zep store: created users, created threads
(with owning user), the appended messages (thread, message) in append
order, and a finite table giving the successful answers of
`thread.get_user_context` (a missing entry models the call raising). -/
structure ZepState where
  users : List String
  threads : List (String × String)
  threadMessages : List (String × ZepMsg)
  contextTable : List ((String × String) × ZepContextResult)
deriving DecidableEq

/-- The store with nothing created yet. -/
def emptyState : ZepState := ⟨[], [], [], []⟩

/-- `thread.get_user_context` as seen by the code: look up the
(thread, user) pair in the store's answer table. -/
def lookupContext (st : ZepState) (threadId userId : String) :
    Option ZepContextResult :=
  (st.contextTable.find? (fun e => e.1 == (threadId, userId))).map (fun e => e.2)

/-- Python truthiness of an optional string: `None` and `""` are falsy. -/
def strTruthy : Option String → Bool
  | none => false
  | some s => s != ""

/-- Python `a or b` on strings: `b` when `a` is empty, else `a`. -/
def orElseStr (a b : String) : String :=
  if a = "" then b else a

/-- `main.py` line 123:
`msg.get("content", "") or msg.get("text", "") or msg.get("message", "")` —
the first non-empty of the three candidate fields, else `""`. -/
def resolveContent (m : RawMsg) : String :=
  orElseStr (m.content.getD "") (orElseStr (m.text.getD "") (m.message.getD ""))

/-- A normalized transcript entry (`main.py` lines 125–128). -/
structure FormattedMsg where
  role : String
  content : String
deriving DecidableEq

/-- `main.py` lines 120–128: keep each record whose resolved content is
non-empty, with `role` defaulting to `"assistant"`; records with no
resolvable text are dropped. -/
def formatTranscript (transcript : List RawMsg) : List FormattedMsg :=
  transcript.filterMap (fun msg =>
    let content := resolveContent msg
    if content = "" then none
    else some ⟨msg.role.getD "assistant", content⟩)

/-- `main.py` lines 91–116: take the `messages` array at the
payload/message level; when it is absent or falsy (empty), fall back to
the call-level `messages` array. -/
def pickTranscript (e : Envelope) : Option (List RawMsg) :=
  match e.messages with
  | some ms => if ms = [] then e.call.messages else some ms
  | none => e.call.messages

/-- The normalized message list the end-of-call path would persist:
location selection followed by per-record normalization. -/
def codeExtractMessages (e : Envelope) : List FormattedMsg :=
  formatTranscript ((pickTranscript e).getD [])

/-- `main.py` line 181: the thread key of the context-retrieval path,
`f"mfc_\x7buser_id\x7d_current"`. -/
def currentThreadId (userId : String) : String :=
  "mfc_" ++ userId ++ "_current"

/-- `main.py` line 134: the thread key of the end-of-call path,
`f"mfc_\x7bphone_number\x7d_\x7bcall_id\x7d"`; a missing call id formats as
the literal `"None"`. -/
def callThreadId (phoneNumber : String) (callId : Option String) : String :=
  "mfc_" ++ phoneNumber ++ "_" ++ callId.getD "None"

/-- `main.py` lines 271–282: the get-or-create reconciliation of a caller
identity inside `save_conversation` — `zep.user.get`, and on a miss
`zep.user.add`.  Returns the new store state and the calls made. -/
def ensure_user (st : ZepState) (userId : String) : ZepState × List ZepCall :=
  if userId ∈ st.users then
    (st, [ZepCall.userGet userId])
  else
    (⟨userId :: st.users, st.threads, st.threadMessages, st.contextTable⟩,
     [ZepCall.userGet userId, ZepCall.userAdd userId])

/-- `main.py` lines 284–294: the get-or-create reconciliation of a thread
inside `save_conversation` — `zep.thread.get`, and on a miss
`zep.thread.add`. -/
def ensure_thread (st : ZepState) (threadId userId : String) :
    ZepState × List ZepCall :=
  if st.threads.any (fun p => p.1 == threadId) then
    (st, [ZepCall.threadGet threadId])
  else
    (⟨st.users, (threadId, userId) :: st.threads, st.threadMessages, st.contextTable⟩,
     [ZepCall.threadGet threadId, ZepCall.threadAdd threadId userId])

/-- `main.py` lines 298–307: convert a normalized transcript entry to the
Zep Cloud message format — role `"user"` keeps role `"user"` and speaker
`"Caller"`; every other role becomes `"assistant"` with speaker
`"Montana Feed Agent"`. -/
def toZepMessage (m : FormattedMsg) : ZepMsg :=
  if m.role = "user" then ⟨"user", m.content, "Caller"⟩
  else ⟨"assistant", m.content, "Montana Feed Agent"⟩

/-- The JSON body returned by `save_conversation` on success
(`main.py` lines 317–323). -/
structure SaveResult where
  success : Bool
  user_id : String
  thread_id : String
  messages_saved : Nat
deriving DecidableEq

/-- `main.py` lines 257–323, `save_conversation`: ensure the user exists,
ensure the thread exists, convert the transcript to Zep messages, and
append them to the thread.  Returns the new store state, the calls made,
and the response body. -/
def save_conversation (st : ZepState) (phoneNumber sessionId : String)
    (transcript : List FormattedMsg) : ZepState × List ZepCall × SaveResult :=
  let r1 := ensure_user st phoneNumber
  let r2 := ensure_thread r1.1 sessionId phoneNumber
  let messages := transcript.map toZepMessage
  (⟨r2.1.users, r2.1.threads,
    r2.1.threadMessages ++ messages.map (fun m => (sessionId, m)),
    r2.1.contextTable⟩,
   r1.2 ++ r2.2 ++ [ZepCall.addMessages sessionId messages],
   ⟨true, phoneNumber, sessionId, messages.length⟩)

/-- The JSON body returned by `get_caller_context`
(`main.py` lines 204–211, 215–221, 245–251).  The Python dicts of the
memory-unavailable and new-caller paths carry no `facts` key; a consumer
reading a missing key sees no facts, so those paths are modelled with
`facts = []`. -/
structure ContextResponse where
  success : Bool
  is_new_caller : Bool
  session_id : String
  context : String
  facts : List String
  message : String
deriving DecidableEq

/-- `main.py` lines 173–251, `get_caller_context`: look the user up; on a
hit, query `thread.get_user_context` on the `_current` thread and return
its context and top-5 facts, degrading to a fixed returning-caller string
when that query raises; on a miss, create the user and the `_current`
thread and return the fixed new-caller onboarding context. -/
def get_caller_context (st : ZepState) (phoneNumber : String) :
    ZepState × List ZepCall × ContextResponse :=
  let userId := phoneNumber
  let threadId := currentThreadId userId
  if userId ∈ st.users then
    match lookupContext st threadId userId with
    | some r =>
        (st, [ZepCall.userGet userId, ZepCall.getUserContext threadId userId],
         ⟨true, false, threadId,
          r.context.getD "Returning caller, but no previous conversation details available.",
          (r.facts.getD []).take 5,
          "Returning caller - memory loaded"⟩)
    | none =>
        (st, [ZepCall.userGet userId, ZepCall.getUserContext threadId userId],
         ⟨true, false, threadId,
          "Returning caller - welcome them back but no previous conversation details available.",
          [],
          "User exists but memory unavailable"⟩)
  else
    (⟨userId :: st.users, (threadId, userId) :: st.threads,
      st.threadMessages, st.contextTable⟩,
     [ZepCall.userGet userId, ZepCall.userAdd userId,
      ZepCall.threadAdd threadId userId],
     ⟨true, true, threadId,
      "This is a new caller. Be welcoming and friendly. Ask about their operation - herd size, location, and what they need help with today.",
      [],
      "New caller - no previous history"⟩)

/-- The JSON responses the webhook handler can return
(`main.py` lines 73–77, 80, 156, 161). -/
inductive WebhookResponse where
  | assistantFirstMessage (firstMessage : String)
  | assistantEmpty
  | statusSuccess
  | acknowledged
deriving DecidableEq

/-- `main.py` lines 47–167, `handle_vapi_webhook`: dispatch on
`message.type`.  `assistant-request` retrieves caller context (a missing
phone number fails the `CallerContextRequest` validation, which the
`except` at line 78 turns into an empty assistant object);
`end-of-call-report` extracts the transcript and, when both the phone
number and the transcript are truthy and normalization kept at least one
message, saves it under the per-call thread key; every other type is
acknowledged. -/
def handle_vapi_webhook (st : ZepState) (payload : Envelope) :
    ZepState × List ZepCall × WebhookResponse :=
  match payload.type with
  | some "assistant-request" =>
      match payload.call.customerNumber with
      | none => (st, [], WebhookResponse.assistantEmpty)
      | some phoneNumber =>
          let out := get_caller_context st phoneNumber
          (out.1, out.2.1, WebhookResponse.assistantFirstMessage out.2.2.context)
  | some "end-of-call-report" =>
      match payload.call.customerNumber, pickTranscript payload with
      | some phoneNumber, some ms =>
          if phoneNumber != "" && !ms.isEmpty then
            let formatted := formatTranscript ms
            if formatted.isEmpty then
              (st, [], WebhookResponse.statusSuccess)
            else
              let threadId := callThreadId phoneNumber payload.call.id
              let out := save_conversation st phoneNumber threadId formatted
              (out.1, out.2.1, WebhookResponse.statusSuccess)
          else (st, [], WebhookResponse.statusSuccess)
      | _, _ => (st, [], WebhookResponse.statusSuccess)
  | _ => (st, [], WebhookResponse.acknowledged)

/-- The message texts transmitted to the store by a trace's
`add_messages` calls, in order. -/
def appendedContents (tr : List ZepCall) : List String :=
  tr.flatMap (fun c =>
    match c with
    | ZepCall.addMessages _ msgs => msgs.map (fun m => m.content)
    | _ => [])

/-- How many messages a trace appends to the store. -/
def appendedCount (tr : List ZepCall) : Nat :=
  (appendedContents tr).length

/-- The thread keys read by a trace's `get_user_context` calls. -/
def contextReadThreads (tr : List ZepCall) : List String :=
  tr.filterMap (fun c =>
    match c with
    | ZepCall.getUserContext threadId _ => some threadId
    | _ => none)

/-- Number of `user.add` (identity create) calls in a trace. -/
def userCreateCount (tr : List ZepCall) : Nat :=
  tr.countP (fun c =>
    match c with
    | ZepCall.userAdd _ => true
    | _ => false)

/-- A response that acknowledges the webhook without carrying any
context or payload data. -/
def isEmptyAck : WebhookResponse → Bool
  | WebhookResponse.assistantFirstMessage _ => false
  | WebhookResponse.assistantEmpty => true
  | WebhookResponse.statusSuccess => true
  | WebhookResponse.acknowledged => true

/-! ## Helper lemmas -/

/-- String append is left-cancellative. -/
theorem strAppend_right_inj (s a b : String) (h : s ++ a = s ++ b) : a = b := by
  obtain ⟨sd⟩ := s
  obtain ⟨ad⟩ := a
  obtain ⟨bd⟩ := b
  have hd : sd ++ ad = sd ++ bd := congrArg String.data h
  rw [List.append_cancel_left hd]

/-- String append is associative. -/
theorem strAppend_assoc (a b c : String) : a ++ b ++ c = a ++ (b ++ c) := by
  obtain ⟨ad⟩ := a
  obtain ⟨bd⟩ := b
  obtain ⟨cd⟩ := c
  show String.mk ((ad ++ bd) ++ cd) = String.mk (ad ++ (bd ++ cd))
  rw [List.append_assoc]

/-- Converting a normalized message to the Zep format keeps its text. -/
theorem toZepMessage_content (m : FormattedMsg) :
    (toZepMessage m).content = m.content := by
  unfold toZepMessage
  split <;> rfl

/-- The identity-reconciliation calls append no messages. -/
theorem ensure_user_appends_nil (st : ZepState) (uid : String) :
    appendedContents (ensure_user st uid).2 = [] := by
  unfold ensure_user
  split <;> rfl

/-- The thread-reconciliation calls append no messages. -/
theorem ensure_thread_appends_nil (st : ZepState) (tid uid : String) :
    appendedContents (ensure_thread st tid uid).2 = [] := by
  unfold ensure_thread
  split <;> rfl

/-! ## C1: end-to-end persistence of a two-message end-of-call report -/

/-- The envelope of the end-to-end scenario: an `end-of-call-report` for
caller `+14065551234`, call id `abc123`, with two payload-level messages
whose texts live under the `message` field. -/
def endOfCallEnvelope : Envelope :=
  ⟨some "end-of-call-report",
   ⟨some "abc123", some "+14065551234", none⟩,
   some [⟨some "user", none, none, some "hello"⟩,
         ⟨some "bot", none, none, some "hi there"⟩]⟩

/-- **C1**: on the end-of-call-report envelope with caller `+14065551234`,
call id `abc123` and messages user/"hello", bot/"hi there", the handler
reconciles the identity `+14065551234` (get then create), reconciles the
session keyed `mfc_+14065551234_abc123` derived from the (phone, call id)
pair, and appends exactly the two normalized messages — the first
caller-side (`user`/`Caller`), the second agent-side
(`assistant`/`Montana Feed Agent`) — in original order. -/
theorem end_of_call_report_end_to_end :
    handle_vapi_webhook emptyState endOfCallEnvelope
      = (⟨["+14065551234"],
          [("mfc_+14065551234_abc123", "+14065551234")],
          [("mfc_+14065551234_abc123", ⟨"user", "hello", "Caller"⟩),
           ("mfc_+14065551234_abc123", ⟨"assistant", "hi there", "Montana Feed Agent"⟩)],
          []⟩,
         [ZepCall.userGet "+14065551234", ZepCall.userAdd "+14065551234",
          ZepCall.threadGet "mfc_+14065551234_abc123",
          ZepCall.threadAdd "mfc_+14065551234_abc123" "+14065551234",
          ZepCall.addMessages "mfc_+14065551234_abc123"
            [⟨"user", "hello", "Caller"⟩,
             ⟨"assistant", "hi there", "Montana Feed Agent"⟩]],
         WebhookResponse.statusSuccess) := by
  decide

/-! ## C2: extraction precedence (spec-side definition vs code) -/

/-- The spec's "take the first non-empty value" over a list of optional
candidate fields. -/
def firstNonEmpty : List (Option String) → Option String
  | [] => none
  | none :: rest => firstNonEmpty rest
  | some s :: rest => if s = "" then firstNonEmpty rest else some s

/-- Spec-side per-message text resolution: fixed precedence `content`,
then `text`, then `message`; first non-empty value, none if all empty. -/
def specResolveText (m : RawMsg) : Option String :=
  firstNonEmpty [m.content, m.text, m.message]

/-- Spec-side location precedence: the payload-level messages array
first, then the call-level one; the first non-empty result is used. -/
def specMessagesList (e : Envelope) : List RawMsg :=
  match e.messages with
  | some ms => if ms = [] then e.call.messages.getD [] else ms
  | none => e.call.messages.getD []

/-- Spec-side extraction: the resolved texts of the kept records, in
order; a record with no resolvable text is silently dropped. -/
def specExtractTexts (e : Envelope) : List String :=
  (specMessagesList e).filterMap specResolveText

/-- Per-message resolution agrees between the spec-side first-non-empty
chain and the code's `or`-chain. -/
theorem specResolveText_eq (m : RawMsg) :
    specResolveText m
      = if resolveContent m = "" then none else some (resolveContent m) := by
  obtain ⟨r, c, t, g⟩ := m
  cases c <;> cases t <;> cases g <;>
    simp only [specResolveText, firstNonEmpty, resolveContent, orElseStr,
      Option.getD_some, Option.getD_none] <;>
    split_ifs <;> simp_all

/-- **C2**: for every envelope, the extraction the spec describes —
messages list first at payload/message level then at call level, each
record's text resolved by the precedence content → text → message taking
the first non-empty value, records with no resolvable text silently
dropped — yields exactly the texts the code's normalization keeps. -/
theorem extraction_precedence_refines (e : Envelope) :
    specExtractTexts e = (codeExtractMessages e).map (fun m => m.content) := by
  have hsel : specMessagesList e = (pickTranscript e).getD [] := by
    cases hm : e.messages with
    | none => simp [specMessagesList, pickTranscript, hm]
    | some ms =>
        by_cases hms : ms = [] <;>
          simp [specMessagesList, pickTranscript, hm, hms]
  rw [specExtractTexts, codeExtractMessages, hsel, formatTranscript,
    List.map_filterMap]
  apply List.filterMap_congr
  intro m _
  rw [specResolveText_eq m]
  by_cases hc : resolveContent m = "" <;> simp [hc]

/-! ## C3: the context path and the persistence path use different keys -/

/-- **C3**: the context-retrieval operation reads the thread
`mfc_<phone>_current` only, while the end-of-call path writes to
`mfc_<phone>_<call_id>`; for every call id other than `"current"` the two
keys differ, so the persisted transcript lands in a session the
context-retrieval path never reads. -/
theorem end_of_call_thread_never_read (st : ZepState) (phone callId : String)
    (h : callId ≠ "current") :
    callThreadId phone (some callId) ≠ currentThreadId phone
    ∧ ∀ tid ∈ contextReadThreads (get_caller_context st phone).2.1,
        tid = currentThreadId phone := by
  constructor
  · intro heq
    apply h
    apply strAppend_right_inj ("mfc_" ++ phone ++ "_")
    have hcur : ("_" ++ "current" : String) = "_current" := by decide
    calc ("mfc_" ++ phone ++ "_") ++ callId
        = callThreadId phone (some callId) := rfl
      _ = currentThreadId phone := heq
      _ = ("mfc_" ++ phone) ++ "_current" := rfl
      _ = ("mfc_" ++ phone) ++ ("_" ++ "current") := by rw [hcur]
      _ = ("mfc_" ++ phone ++ "_") ++ "current" := (strAppend_assoc _ _ _).symm
  · intro tid htid
    simp only [get_caller_context] at htid
    split at htid
    · split at htid <;> simp_all [contextReadThreads]
    · simp_all [contextReadThreads]

/-- Witness for C3 at phone `+14065551234` and call id `abc123`. -/
theorem end_of_call_thread_never_read_witness :
    ("abc123" : String) ≠ "current"
    ∧ (callThreadId "+14065551234" (some "abc123")
        ≠ currentThreadId "+14065551234"
      ∧ ∀ tid ∈ contextReadThreads
            (get_caller_context emptyState "+14065551234").2.1,
          tid = currentThreadId "+14065551234") :=
  ⟨by decide,
   end_of_call_thread_never_read emptyState "+14065551234" "abc123" (by decide)⟩

/-! ## C10: identity reconciliation is idempotent -/

/-- **C10**: running the identity get-or-create reconciliation twice in
succession for the same key performs at most one create in total, and the
second run observes the hit path, performing no create at all. -/
theorem ensure_identity_idempotent (st : ZepState) (uid : String) :
    userCreateCount ((ensure_user st uid).2
        ++ (ensure_user (ensure_user st uid).1 uid).2) ≤ 1
    ∧ userCreateCount (ensure_user (ensure_user st uid).1 uid).2 = 0 := by
  by_cases h : uid ∈ st.users
  · simp [ensure_user, h, userCreateCount]
  · have h2 : uid ∈ (ensure_user st uid).1.users := by
      simp [ensure_user, h]
    simp [ensure_user, h, h2, userCreateCount]

/-! ## C4: per-message truncation — absent from the code -/

/-- The fixed per-message maximum length the specification states
(2500 units); `save_conversation` in `main.py` applies no such cap. -/
def MAX_MESSAGE_LENGTH : Nat := 2500

/-- A message text one character longer than the stated maximum. -/
def longContent : String := String.mk (List.replicate 2501 'a')

/-- **C4 counterexample**: saving a single message whose text has 2501
characters transmits that text to the store unchanged — longer than the
stated maximum and with no truncation marker — so no truncation happens
(and `main.py` defines no truncation counter at all). -/
theorem save_no_truncation_cex :
    appendedContents
        (save_conversation emptyState "+14065551234" "mfc_+14065551234_abc123"
          [⟨"user", longContent⟩]).2.1
      = [longContent]
    ∧ MAX_MESSAGE_LENGTH < longContent.length := by
  constructor
  · rfl
  · have hl : longContent.length = 2501 := by
      show (List.replicate 2501 'a').length = 2501
      exact List.length_replicate _ _
    rw [hl]
    decide

/-- **C4 amended**: the save operation transmits every message's text to
the store verbatim — the appended contents are exactly the input texts,
with no length cap, no truncation marker and no truncation counter. -/
theorem save_transmits_text_verbatim (st : ZepState) (uid tid : String)
    (transcript : List FormattedMsg) :
    appendedContents (save_conversation st uid tid transcript).2.1
      = transcript.map (fun m => m.content) := by
  have h1 := ensure_user_appends_nil st uid
  have h2 := ensure_thread_appends_nil (ensure_user st uid).1 tid uid
  simp only [save_conversation, appendedContents, List.flatMap_append] at h1 h2 ⊢
  rw [h1, h2]
  simp only [List.nil_append, List.flatMap_cons, List.flatMap_nil,
    List.append_nil, List.map_map]
  congr 1
  funext m
  exact toZepMessage_content m

/-! ## C5: tool-call webhooks are not dispatched -/

/-- An envelope whose declared type is `tool-calls`. -/
def toolCallsEnvelope : Envelope :=
  ⟨some "tool-calls", ⟨some "call_1", some "+14065551234", none⟩, none⟩

/-- An envelope whose declared type is `function-call`. -/
def functionCallEnvelope : Envelope :=
  ⟨some "function-call", ⟨some "call_2", some "+14065551234", none⟩, none⟩

/-- **C5 counterexample**: on a `tool-calls` envelope the dispatcher makes
no store call at all (so it invokes no context retrieval and extracts no
function call) and returns the generic unhandled-type acknowledgement,
not a tool result. -/
theorem tool_calls_not_dispatched_cex :
    handle_vapi_webhook emptyState toolCallsEnvelope
      = (emptyState, [], WebhookResponse.acknowledged) := by
  decide

/-- **C5 amended**: every envelope whose declared type is `tool-calls` or
`function-call` falls through to the dispatcher's unhandled branch: the
state is untouched, no store call is made, and the response is the
generic acknowledgement. -/
theorem tool_calls_acknowledged (st : ZepState) (e : Envelope)
    (h : e.type = some "tool-calls" ∨ e.type = some "function-call") :
    handle_vapi_webhook st e = (st, [], WebhookResponse.acknowledged) := by
  obtain ⟨ty, call, msgs⟩ := e
  rcases h with h | h
  · have h2 : ty = some "tool-calls" := h
    subst h2
    rfl
  · have h2 : ty = some "function-call" := h
    subst h2
    rfl

/-- Witness for C5 (amended) on the `function-call` envelope. -/
theorem tool_calls_acknowledged_witness :
    (functionCallEnvelope.type = some "tool-calls"
      ∨ functionCallEnvelope.type = some "function-call")
    ∧ handle_vapi_webhook emptyState functionCallEnvelope
        = (emptyState, [], WebhookResponse.acknowledged) :=
  ⟨Or.inr rfl,
   tool_calls_acknowledged emptyState functionCallEnvelope (Or.inr rfl)⟩

/-! ## C6: degraded context retrieval -/

/-- A store in which caller `+14065551234` exists, their `_current`
thread exists and holds one previously appended raw message, but the
`get_user_context` query has no successful answer (it raises). -/
def degradedState : ZepState :=
  ⟨["+14065551234"],
   [("mfc_+14065551234_current", "+14065551234")],
   [("mfc_+14065551234_current", ⟨"user", "my herd is 200 head", "Caller"⟩)],
   []⟩

/-- **C6 counterexample**: with recent raw messages available in the
store, a failing full-context retrieval is followed by no further
retrieval call — the trace holds exactly the user lookup and the one
failed context query — and the returned context is the fixed generic
returning-caller string, not a summary synthesized from the recent
messages; so no reduced retrieval of recent raw messages is attempted. -/
theorem context_no_reduced_retrieval_cex :
    degradedState.threadMessages ≠ []
    ∧ (get_caller_context degradedState "+14065551234").2.1
        = [ZepCall.userGet "+14065551234",
           ZepCall.getUserContext "mfc_+14065551234_current" "+14065551234"]
    ∧ (get_caller_context degradedState "+14065551234").2.2.context
        = "Returning caller - welcome them back but no previous conversation details available." := by
  decide

/-- **C6 amended**: for every caller key whose identity lookup succeeds
but whose full context retrieval fails, the operation does not raise past
its boundary and returns a successful response whose context is the
fixed, non-empty generic returning-caller string (no reduced retrieval of
recent raw messages is attempted in between). -/
theorem context_failure_generic_fallback (st : ZepState) (phone : String)
    (hu : phone ∈ st.users)
    (hf : lookupContext st (currentThreadId phone) phone = none) :
    (get_caller_context st phone).2.2.success = true
    ∧ (get_caller_context st phone).2.2.context
        = "Returning caller - welcome them back but no previous conversation details available."
    ∧ (get_caller_context st phone).2.2.context ≠ "" := by
  have hrun : (get_caller_context st phone).2.2
      = ⟨true, false, currentThreadId phone,
         "Returning caller - welcome them back but no previous conversation details available.",
         [], "User exists but memory unavailable"⟩ := by
    simp only [get_caller_context, if_pos hu, hf]
  rw [hrun]
  refine ⟨rfl, rfl, ?_⟩
  show ("Returning caller - welcome them back but no previous conversation details available." : String) ≠ ""
  decide

/-- Witness for C6 (amended) on `degradedState`. -/
theorem context_failure_generic_fallback_witness :
    ("+14065551234" ∈ degradedState.users
      ∧ lookupContext degradedState (currentThreadId "+14065551234")
          "+14065551234" = none)
    ∧ ((get_caller_context degradedState "+14065551234").2.2.success = true
      ∧ (get_caller_context degradedState "+14065551234").2.2.context
          = "Returning caller - welcome them back but no previous conversation details available."
      ∧ (get_caller_context degradedState "+14065551234").2.2.context ≠ "") :=
  ⟨⟨by decide, by decide⟩,
   context_failure_generic_fallback degradedState "+14065551234"
     (by decide) (by decide)⟩

/-! ## C7: never-seen caller -/

/-- **C7**: for every caller key the identity lookup misses, context
retrieval reports a new caller with the fixed onboarding context string
(welcome the caller, ask about their operation) and zero facts, and as a
side effect creates the identity and its `_current` session: the new
state contains both, and the trace shows the lookup, the identity create
and the thread create. -/
theorem new_caller_onboarding (st : ZepState) (phone : String)
    (h : phone ∉ st.users) :
    (get_caller_context st phone).2.2.is_new_caller = true
    ∧ (get_caller_context st phone).2.2.context
        = "This is a new caller. Be welcoming and friendly. Ask about their operation - herd size, location, and what they need help with today."
    ∧ (get_caller_context st phone).2.2.facts = []
    ∧ phone ∈ (get_caller_context st phone).1.users
    ∧ (currentThreadId phone, phone) ∈ (get_caller_context st phone).1.threads
    ∧ (get_caller_context st phone).2.1
        = [ZepCall.userGet phone, ZepCall.userAdd phone,
           ZepCall.threadAdd (currentThreadId phone) phone] := by
  simp [get_caller_context, h]

/-- Witness for C7: the empty store has never seen `+14065551234`. -/
theorem new_caller_onboarding_witness :
    ("+14065551234" ∉ emptyState.users)
    ∧ ((get_caller_context emptyState "+14065551234").2.2.is_new_caller = true
      ∧ (get_caller_context emptyState "+14065551234").2.2.context
          = "This is a new caller. Be welcoming and friendly. Ask about their operation - herd size, location, and what they need help with today."
      ∧ (get_caller_context emptyState "+14065551234").2.2.facts = []
      ∧ "+14065551234" ∈ (get_caller_context emptyState "+14065551234").1.users
      ∧ (currentThreadId "+14065551234", "+14065551234")
          ∈ (get_caller_context emptyState "+14065551234").1.threads
      ∧ (get_caller_context emptyState "+14065551234").2.1
          = [ZepCall.userGet "+14065551234", ZepCall.userAdd "+14065551234",
             ZepCall.threadAdd (currentThreadId "+14065551234") "+14065551234"]) :=
  ⟨by decide,
   new_caller_onboarding emptyState "+14065551234" (by decide)⟩

/-! ## C8: empty normalized transcript is a no-op -/

/-- **C8**: for every end-of-call envelope whose normalized message list
is empty, the handler leaves the store untouched, makes no store call
(so in particular no write), appends zero messages, and still answers
success. -/
theorem empty_normalized_no_writes (st : ZepState) (e : Envelope)
    (ht : e.type = some "end-of-call-report")
    (hn : codeExtractMessages e = []) :
    handle_vapi_webhook st e = (st, [], WebhookResponse.statusSuccess)
    ∧ appendedCount (handle_vapi_webhook st e).2.1 = 0 := by
  have hmain : handle_vapi_webhook st e = (st, [], WebhookResponse.statusSuccess) := by
    obtain ⟨ty, call, msgs⟩ := e
    have h2 : ty = some "end-of-call-report" := ht
    subst h2
    simp only [codeExtractMessages] at hn
    simp only [handle_vapi_webhook]
    split
    · rename_i pn tlist hpn htr
      rw [htr, Option.getD_some] at hn
      rw [hn]
      simp
    · rfl
  exact ⟨hmain, by rw [hmain]; rfl⟩

/-- An end-of-call envelope whose only record has no resolvable text. -/
def emptyContentEnvelope : Envelope :=
  ⟨some "end-of-call-report",
   ⟨some "abc123", some "+14065551234", none⟩,
   some [⟨some "user", none, none, some ""⟩]⟩

/-- Witness for C8 on an envelope whose one record normalizes away. -/
theorem empty_normalized_no_writes_witness :
    (emptyContentEnvelope.type = some "end-of-call-report"
      ∧ codeExtractMessages emptyContentEnvelope = [])
    ∧ (handle_vapi_webhook emptyState emptyContentEnvelope
        = (emptyState, [], WebhookResponse.statusSuccess)
      ∧ appendedCount
          (handle_vapi_webhook emptyState emptyContentEnvelope).2.1 = 0) :=
  ⟨⟨rfl, by decide⟩,
   empty_normalized_no_writes emptyState emptyContentEnvelope rfl (by decide)⟩

/-! ## C9: missing caller phone means no store mutation -/

/-- **C9**: for every webhook envelope with no caller phone field, the
dispatcher leaves the store untouched, makes no store call (hence no
identity create, no session create, no message append), and returns a
data-free acknowledgement response. -/
theorem missing_phone_no_mutation (st : ZepState) (e : Envelope)
    (h : e.call.customerNumber = none) :
    (handle_vapi_webhook st e).1 = st
    ∧ (handle_vapi_webhook st e).2.1 = []
    ∧ isEmptyAck (handle_vapi_webhook st e).2.2 = true := by
  obtain ⟨ty, ⟨cid, cnum, cmsgs⟩, msgs⟩ := e
  have h2 : cnum = none := h
  subst h2
  simp only [handle_vapi_webhook]
  split <;> exact ⟨rfl, rfl, rfl⟩

/-- An `assistant-request` envelope with no caller phone. -/
def noPhoneEnvelope : Envelope :=
  ⟨some "assistant-request", ⟨some "call_3", none, none⟩, none⟩

/-- Witness for C9 on an assistant-request envelope without a phone. -/
theorem missing_phone_no_mutation_witness :
    (noPhoneEnvelope.call.customerNumber = none)
    ∧ ((handle_vapi_webhook emptyState noPhoneEnvelope).1 = emptyState
      ∧ (handle_vapi_webhook emptyState noPhoneEnvelope).2.1 = []
      ∧ isEmptyAck (handle_vapi_webhook emptyState noPhoneEnvelope).2.2 = true) :=
  ⟨rfl, missing_phone_no_mutation emptyState noPhoneEnvelope rfl⟩
